import Mathlib

/-!
Shallow embedding of the whale-detector repository's phase-gated decision
engine (src/main.py) and the tier classifier (src/app.py).

Python floats holding whole-second timestamps are modelled as `Int`
(the code truncates differences with `int(...)` before using them);
the float statistics of `app.py` are modelled as `Rat`.  Module-level
mutable globals are threaded explicitly: the `FORCE_*` globals as an
`OverrideState` record and `ENGINE` as an `EngineState` record.
-/

namespace WhaleDetector

/-- The module-level `ENGINE` global of src/main.py (class `EngineState`). -/
structure EngineState where
  cycle_started_at : Int
  last_data_update_at : Int
deriving DecidableEq, Repr

/-- The four module-level override globals of src/main.py
(`FORCE_RELEASE`, `FORCE_LOCK`, `FORCE_STATE`, `FORCE_CONFIDENCE`). -/
structure OverrideState where
  FORCE_RELEASE : Bool
  FORCE_LOCK : Bool
  FORCE_STATE : Option String
  FORCE_CONFIDENCE : Option Int
deriving DecidableEq, Repr

/-- `STATE_ORDER` from src/main.py line 38. -/
def STATE_ORDER : List String := ["POSITIONING", "TRANSITION", "DISTRIBUTION", "RELEASE"]

/-- `PHASE_DURATIONS_SECONDS` from src/main.py lines 41-46, as an ordered
association list (the Python dict; its key set equals `STATE_ORDER`). -/
def PHASE_DURATIONS_SECONDS : List (String × Int) :=
  [("POSITIONING", 6 * 60), ("TRANSITION", 4 * 60), ("DISTRIBUTION", 3 * 60),
   ("RELEASE", 2 * 60)]

/-- Dict access `PHASE_DURATIONS_SECONDS[p]`; total with default 0, which is
never hit because every lookup in the code uses a key of `STATE_ORDER`. -/
def phase_duration (p : String) : Int := (PHASE_DURATIONS_SECONDS.lookup p).getD 0

/-- `MIN_CONFIDENCE_TO_ALLOW` from src/main.py line 49. -/
def MIN_CONFIDENCE_TO_ALLOW : Int := 70

/-- `STALE_DATA_FAIL_AFTER` from src/main.py line 54. -/
def STALE_DATA_FAIL_AFTER : Int := 6 * 60

/-- Result record of `_compute_phase_and_remaining` (src/main.py lines 137-142). -/
structure PhaseInfo where
  phase : String
  phase_remaining : Int
  cycle_elapsed : Int
  cycle_total : Int
deriving DecidableEq, Repr

/-- The `for phase in STATE_ORDER` loop of `_compute_phase_and_remaining`
(src/main.py lines 131-143), with the running `cursor` accumulator;
`none` corresponds to falling through to the fallback return. -/
def phaseWalk (elapsed_in_cycle : Int) : Int → List String → Option (String × Int)
  | _, [] => none
  | cursor, phase :: rest =>
    let dur := phase_duration phase
    if elapsed_in_cycle < cursor + dur then
      some (phase, max (dur - (elapsed_in_cycle - cursor)) 0)
    else
      phaseWalk elapsed_in_cycle (cursor + dur) rest

/-- `_compute_phase_and_remaining` from src/main.py lines 117-151.
Python `%` on ints agrees with `Int.emod` for a positive modulus. -/
def _compute_phase_and_remaining (now_ts : Int) (eng : EngineState) : PhaseInfo :=
  let elapsed := now_ts - eng.cycle_started_at
  let cycle_total := (STATE_ORDER.map phase_duration).sum
  let elapsed_in_cycle := elapsed % cycle_total
  match phaseWalk elapsed_in_cycle 0 STATE_ORDER with
  | some (phase, phase_remaining) =>
    { phase := phase, phase_remaining := phase_remaining,
      cycle_elapsed := elapsed_in_cycle, cycle_total := cycle_total }
  | none =>
    { phase := "RELEASE", phase_remaining := 0,
      cycle_elapsed := elapsed_in_cycle, cycle_total := cycle_total }

/-- Derived closed form of the phase walk at an in-cycle offset `e`
(not part of the source; proven equal to the translation above). -/
def phaseInfoAt (e : Int) : PhaseInfo :=
  if e < 360 then ⟨"POSITIONING", 360 - e, e, 900⟩
  else if e < 600 then ⟨"TRANSITION", 600 - e, e, 900⟩
  else if e < 780 then ⟨"DISTRIBUTION", 780 - e, e, 900⟩
  else if e < 900 then ⟨"RELEASE", 900 - e, e, 900⟩
  else ⟨"RELEASE", 0, e, 900⟩

/-- `_grade_from_score` from src/main.py lines 103-114. -/
def _grade_from_score (score : Option Int) : Option String :=
  match score with
  | none => none
  | some score =>
    if score ≥ 90 then some "A+"
    else if score ≥ 80 then some "A"
    else if score ≥ 70 then some "B"
    else if score ≥ 60 then some "C"
    else some "D"

/-- The string `f"{m}:{s:02d}"` of `_mmss`, with its zero padding. -/
def mmssFormat (m s : Int) : String :=
  toString m ++ ":" ++ (if s < 10 then "0" ++ toString s else toString s)

/-- `_mmss` from src/main.py lines 97-100; Python `//` and `%` agree with
`Int.ediv`/`Int.emod` (the Lean `Int` instances) for a positive divisor. -/
def _mmss (seconds : Int) : String :=
  let m := seconds / 60
  let s := seconds % 60
  mmssFormat m s

/-- `_compute_confidence` from src/main.py lines 154-171; the `FORCE_CONFIDENCE`
global is threaded through `OverrideState`. -/
def _compute_confidence (ov : OverrideState) (phase : String) : Option Int :=
  match ov.FORCE_CONFIDENCE with
  | some fc => some (max 0 (min 100 fc))
  | none =>
    if phase ≠ "RELEASE" then none
    else some 82

/-- `_fail_state` from src/main.py lines 174-192. -/
def _fail_state (ov : OverrideState) (now_ts : Int) (eng : EngineState) : Option String :=
  if ov.FORCE_RELEASE && ov.FORCE_LOCK then
    some "CONFIG_CONFLICT: FORCE_RELEASE and FORCE_LOCK are both True"
  else
    let staleness := now_ts - eng.last_data_update_at
    if staleness ≥ STALE_DATA_FAIL_AFTER then
      some ("STALE_DATA: last update " ++ toString staleness ++ "s ago")
    else
      none

/-- `_resolve_effective_phase` from src/main.py lines 195-200. -/
def _resolve_effective_phase (ov : OverrideState) (phase : String) : String :=
  match ov.FORCE_STATE with
  | some s =>
    if s ∈ STATE_ORDER then s
    else if ov.FORCE_RELEASE then "RELEASE"
    else phase
  | none =>
    if ov.FORCE_RELEASE then "RELEASE"
    else phase

/-- `_entry_permission` from src/main.py lines 203-218; the `FORCE_LOCK`
global is threaded through `OverrideState`. -/
def _entry_permission (ov : OverrideState) (phase : String) (confidence : Option Int)
    (fail_state : Option String) : String :=
  if fail_state.isSome then "LOCKED"
  else if ov.FORCE_LOCK then "LOCKED"
  else if phase ≠ "RELEASE" then "LOCKED"
  else
    match confidence with
    | none => "LOCKED"
    | some confidence =>
      if confidence ≥ MIN_CONFIDENCE_TO_ALLOW then "ALLOWED" else "LOCKED"

/-- `_message` from src/main.py lines 221-233 (the emoji prefixes of the
source strings are kept as the literal bytes stored in the file). -/
def _message (phase : String) (permission : String) (phase_remaining : Option Int)
    (confidence : Option Int) (fail_state : Option String) : String :=
  match fail_state with
  | some fs => "âš ï¸ FAIL STATE â€” ENTRY LOCKED (" ++ fs ++ ")"
  | none =>
    if permission = "LOCKED" then
      match phase_remaining with
      | some r => "ðŸ‹ " ++ phase ++ " â€” ENTRY LOCKED (â³ " ++ _mmss r ++ ")"
      | none => "ðŸ‹ " ++ phase ++ " â€” ENTRY LOCKED"
    else
      "ðŸ‹ RELEASE â€” ENTRY ALLOWED (Confidence: " ++
        (match confidence with | some c => toString c | none => "None") ++ ")"

/-- Python `str.lower()` over the characters of the string (the route only
feeds it ASCII query values, for which this is exact). -/
def pyLower (s : String) : String := ⟨s.data.map Char.toLower⟩

/-- Python `str.upper()` over the characters of the string. -/
def pyUpper (s : String) : String := ⟨s.data.map Char.toUpper⟩

/-- Python `str.strip()`: whitespace removed from both ends. -/
def pyStrip (s : String) : String :=
  ⟨((s.data.dropWhile Char.isWhitespace).reverse.dropWhile Char.isWhitespace).reverse⟩

/-- Response record of the `/whale-status` route (src/main.py lines 558-566). -/
structure StatusResponse where
  whale_state : String
  entry_permission : String
  cooldown_seconds_remaining : Option Int
  confidence_score : Option Int
  confidence_grade : Option String
  fail_state : Option String
  message : String
deriving DecidableEq, Repr

/-- `whale_status` from src/main.py lines 520-566.  The route reads the
global `ENGINE` and the override globals and may rewrite `FORCE_RELEASE`
and `FORCE_STATE` from the `force` query parameter (lines 522-537), so the
embedding returns the updated globals next to the response.  Python's
`if force:` is false for both `None` and the empty string. -/
def whale_status (force : Option String) (ov : OverrideState) (eng : EngineState)
    (now_ts : Int) : OverrideState × EngineState × StatusResponse :=
  let ov :=
    match force with
    | none => ov
    | some force =>
      if force = "" then ov
      else
        let f := pyStrip (pyLower force)
        if f = "release" then
          { ov with FORCE_RELEASE := true, FORCE_STATE := none }
        else if f = "positioning" ∨ f = "transition" ∨ f = "distribution" then
          { ov with FORCE_RELEASE := false, FORCE_STATE := some (pyUpper f) }
        else if f = "clear" then
          { ov with FORCE_RELEASE := false, FORCE_STATE := none }
        else ov
  let phase_info := _compute_phase_and_remaining now_ts eng
  let phase := _resolve_effective_phase ov phase_info.phase
  let confidence := _compute_confidence ov phase
  let confidence_grade := _grade_from_score confidence
  let fail_state := _fail_state ov now_ts eng
  let permission := _entry_permission ov phase confidence fail_state
  let cooldown : Option Int :=
    if permission = "LOCKED" then
      if phase = phase_info.phase then some phase_info.phase_remaining
      else PHASE_DURATIONS_SECONDS.lookup phase
    else none
  (ov, eng,
    { whale_state := phase, entry_permission := permission,
      cooldown_seconds_remaining := cooldown, confidence_score := confidence,
      confidence_grade := confidence_grade, fail_state := fail_state,
      message := _message phase permission cooldown confidence fail_state })

end WhaleDetector

namespace WhaleApp

/-!
Embedding of the tier classifier of src/app.py.  The floats of the Python
code (volume multiples, percentage moves, accumulation strength) are
modelled as rationals.
-/

/-- `VOLUME_SPIKE_MULT` from src/app.py line 13. -/
def VOLUME_SPIKE_MULT : Rat := 5.0

/-- `TIER2_MULT` from src/app.py line 14. -/
def TIER2_MULT : Rat := 3.0

/-- `TIER3_MULT` from src/app.py line 15. -/
def TIER3_MULT : Rat := 8.0

/-- `MIN_SPIKE_MOVE_PCT` from src/app.py line 16. -/
def MIN_SPIKE_MOVE_PCT : Rat := 1.5

/-- The `spike_info` dict produced by `calc_volume_spike` (src/app.py). -/
structure SpikeInfo where
  spike : Bool
  volume_mult : Rat
  move_pct : Rat
deriving DecidableEq, Repr

/-- The `accum_info` dict produced by `detect_quiet_accumulation` (src/app.py). -/
structure AccumInfo where
  accumulation : Bool
  strength : Rat
deriving DecidableEq, Repr

/-- Result dict of `assign_tier` (src/app.py lines 146-149). -/
structure TierInfo where
  tier : Nat
  reasons : List String
deriving DecidableEq, Repr

/-- `assign_tier` from src/app.py lines 116-149.  Each Python
`if cond: tier = k` statement becomes a shadowing `let`; the `reasons`
list collects the same strings in the same order (rationals are rendered
by `toString`, so "3" where Python prints "3.0"). -/
def assign_tier (spike_info : SpikeInfo) (accum_info : AccumInfo) : TierInfo :=
  let volume_mult := spike_info.volume_mult
  let move_pct := spike_info.move_pct
  let accumulation := accum_info.accumulation
  let strength := accum_info.strength
  let tier : Nat := 0
  let reasons : List String := []
  let tier := if volume_mult ≥ TIER2_MULT then 1 else tier
  let reasons := if volume_mult ≥ TIER2_MULT then
      reasons ++ ["vol ≥ " ++ toString TIER2_MULT ++ "x avg"] else reasons
  let tier := if volume_mult ≥ VOLUME_SPIKE_MULT ∧ spike_info.spike = true then 2 else tier
  let reasons := if volume_mult ≥ VOLUME_SPIKE_MULT ∧ spike_info.spike = true then
      reasons ++ ["whale spike " ++ toString volume_mult ++ "x, " ++
        toString move_pct ++ "% move"] else reasons
  let tier := if volume_mult ≥ TIER3_MULT ∧ move_pct ≥ MIN_SPIKE_MOVE_PCT * 2 then 3 else tier
  let reasons := if volume_mult ≥ TIER3_MULT ∧ move_pct ≥ MIN_SPIKE_MOVE_PCT * 2 then
      reasons ++ ["extreme spike " ++ toString volume_mult ++ "x, " ++
        toString move_pct ++ "% move"] else reasons
  let tier :=
    if accumulation = true then
      let tier := if tier < 1 then 1 else tier
      let tier := if strength ≥ 0.5 ∧ tier < 2 then 2 else tier
      let tier := if strength ≥ 0.8 ∧ tier < 3 then 3 else tier
      tier
    else tier
  let reasons :=
    if accumulation = true then
      reasons ++ ["quiet accumulation, strength " ++ toString strength]
    else reasons
  { tier := tier, reasons := reasons }

end WhaleApp

namespace WhaleDetector

/-!
Lemmas and claim theorems about the decision engine.
-/

theorem dur_positioning : phase_duration "POSITIONING" = 360 := by decide

theorem dur_transition : phase_duration "TRANSITION" = 240 := by decide

theorem dur_distribution : phase_duration "DISTRIBUTION" = 180 := by decide

theorem dur_release : phase_duration "RELEASE" = 120 := by decide

theorem cycle_total_eq : (STATE_ORDER.map phase_duration).sum = 900 := by decide

theorem phaseWalk_closed (e : Int) :
    phaseWalk e 0 STATE_ORDER =
      if e < 360 then some ("POSITIONING", max (360 - e) 0)
      else if e < 600 then some ("TRANSITION", max (600 - e) 0)
      else if e < 780 then some ("DISTRIBUTION", max (780 - e) 0)
      else if e < 900 then some ("RELEASE", max (900 - e) 0)
      else none := by
  simp only [STATE_ORDER, phaseWalk, dur_positioning, dur_transition,
    dur_distribution, dur_release]
  norm_num
  split_ifs <;> simp <;> omega

/-- Closed form of `_compute_phase_and_remaining`: the walk over the four
concrete phases, expressed as a chain of interval tests on
`(now − cycle_started_at) % 900`. -/
theorem compute_phase_closed_form (now_ts : Int) (eng : EngineState) :
    _compute_phase_and_remaining now_ts eng =
      phaseInfoAt ((now_ts - eng.cycle_started_at) % 900) := by
  simp only [_compute_phase_and_remaining, cycle_total_eq, phaseWalk_closed, phaseInfoAt]
  generalize (now_ts - eng.cycle_started_at) % 900 = e
  split_ifs <;> simp [PhaseInfo.mk.injEq] <;> omega

example :
    _compute_phase_and_remaining 400 ⟨0, 0⟩ =
      { phase := "TRANSITION", phase_remaining := 200,
        cycle_elapsed := 400, cycle_total := 900 } := by decide

example :
    _compute_phase_and_remaining 0 ⟨100, 0⟩ =
      { phase := "RELEASE", phase_remaining := 100,
        cycle_elapsed := 800, cycle_total := 900 } := by decide

/-- C1: for every fail-state, force-lock flag, effective phase and optional
confidence, `_entry_permission` returns `"ALLOWED"` exactly when there is no
fail-state, `FORCE_LOCK` is off, the phase is `"RELEASE"` and the confidence
is present and at least `MIN_CONFIDENCE_TO_ALLOW` (70); in every other case
it returns `"LOCKED"`. -/
theorem entry_permission_allowed_iff (ov : OverrideState) (phase : String)
    (confidence : Option Int) (fail_state : Option String) :
    (_entry_permission ov phase confidence fail_state = "ALLOWED" ↔
      fail_state = none ∧ ov.FORCE_LOCK = false ∧ phase = "RELEASE" ∧
        ∃ c, confidence = some c ∧ 70 ≤ c) ∧
    (_entry_permission ov phase confidence fail_state = "ALLOWED" ∨
      _entry_permission ov phase confidence fail_state = "LOCKED") := by
  unfold _entry_permission MIN_CONFIDENCE_TO_ALLOW
  cases fail_state <;> cases confidence <;>
    (split_ifs <;> simp_all <;> omega)

/-- C3: at every instant, also before `cycle_started_at` where the raw
elapsed time is negative, the phase clock reports one of the four phases of
`STATE_ORDER` and a `phase_remaining` inside `[0, phase_duration(phase)]`. -/
theorem phase_clock_in_range (now_ts : Int) (eng : EngineState) :
    (_compute_phase_and_remaining now_ts eng).phase ∈ STATE_ORDER ∧
    0 ≤ (_compute_phase_and_remaining now_ts eng).phase_remaining ∧
    (_compute_phase_and_remaining now_ts eng).phase_remaining ≤
      phase_duration (_compute_phase_and_remaining now_ts eng).phase := by
  have h0 : 0 ≤ (now_ts - eng.cycle_started_at) % 900 :=
    Int.emod_nonneg _ (by norm_num)
  have h1 : (now_ts - eng.cycle_started_at) % 900 < 900 :=
    Int.emod_lt_of_pos _ (by norm_num)
  rw [compute_phase_closed_form]
  revert h0 h1
  generalize (now_ts - eng.cycle_started_at) % 900 = e
  intro h0 h1
  unfold phaseInfoAt
  split_ifs <;>
    simp [STATE_ORDER, dur_positioning, dur_transition, dur_distribution, dur_release] <;>
    omega

/-- C4: at an elapsed time equal to a cumulative phase-duration boundary the
clock reports the next phase (lower-inclusive boundary) with the next
phase's full configured duration remaining; this holds at the three interior
boundaries 360, 600 and 780 and at the cycle wrap 900. -/
theorem phase_boundary_next_phase (s l : Int) :
    _compute_phase_and_remaining (s + 360) ⟨s, l⟩ =
      { phase := "TRANSITION", phase_remaining := 240,
        cycle_elapsed := 360, cycle_total := 900 } ∧
    _compute_phase_and_remaining (s + 600) ⟨s, l⟩ =
      { phase := "DISTRIBUTION", phase_remaining := 180,
        cycle_elapsed := 600, cycle_total := 900 } ∧
    _compute_phase_and_remaining (s + 780) ⟨s, l⟩ =
      { phase := "RELEASE", phase_remaining := 120,
        cycle_elapsed := 780, cycle_total := 900 } ∧
    _compute_phase_and_remaining (s + 900) ⟨s, l⟩ =
      { phase := "POSITIONING", phase_remaining := 360,
        cycle_elapsed := 0, cycle_total := 900 } := by
  refine ⟨?_, ?_, ?_, ?_⟩ <;>
    · rw [compute_phase_closed_form]
      norm_num [phaseInfoAt]

/-- C6: when `FORCE_RELEASE` and `FORCE_LOCK` are both on, `_fail_state`
reports the configuration-conflict reason (ahead of the staleness check,
whatever the data freshness), and the entry permission computed from that
fail-state is `"LOCKED"` for every phase and confidence. -/
theorem config_conflict_locks (ov : OverrideState) (eng : EngineState) (now_ts : Int)
    (phase : String) (confidence : Option Int)
    (hr : ov.FORCE_RELEASE = true) (hl : ov.FORCE_LOCK = true) :
    _fail_state ov now_ts eng =
      some "CONFIG_CONFLICT: FORCE_RELEASE and FORCE_LOCK are both True" ∧
    _entry_permission ov phase confidence (_fail_state ov now_ts eng) = "LOCKED" := by
  have h : _fail_state ov now_ts eng =
      some "CONFIG_CONFLICT: FORCE_RELEASE and FORCE_LOCK are both True" := by
    unfold _fail_state
    rw [hr, hl]
    simp
  refine ⟨h, ?_⟩
  rw [h]
  unfold _entry_permission
  simp

/-- Closed instantiation of `config_conflict_locks` at both overrides on,
fresh data, RELEASE phase and confidence 99. -/
theorem config_conflict_locks_witness :
    _fail_state ⟨true, true, none, none⟩ 0 ⟨0, 0⟩ =
      some "CONFIG_CONFLICT: FORCE_RELEASE and FORCE_LOCK are both True" ∧
    _entry_permission ⟨true, true, none, none⟩ "RELEASE" (some 99)
      (_fail_state ⟨true, true, none, none⟩ 0 ⟨0, 0⟩) = "LOCKED" :=
  config_conflict_locks ⟨true, true, none, none⟩ ⟨0, 0⟩ 0 "RELEASE" (some 99) rfl rfl

/-- C7: without an override conflict, staleness detection is
boundary-inclusive: at `now − last_data_update_at` exactly
`STALE_DATA_FAIL_AFTER` (360) the fail-state fires with the staleness
duration in its message, and one second earlier it does not fire. -/
theorem stale_boundary (ov : OverrideState) (eng : EngineState) (now_ts : Int)
    (hnc : ¬(ov.FORCE_RELEASE = true ∧ ov.FORCE_LOCK = true)) :
    STALE_DATA_FAIL_AFTER = 360 ∧
    (now_ts - eng.last_data_update_at = 360 →
      _fail_state ov now_ts eng = some "STALE_DATA: last update 360s ago") ∧
    (now_ts - eng.last_data_update_at = 359 →
      _fail_state ov now_ts eng = none) := by
  have hb : (ov.FORCE_RELEASE && ov.FORCE_LOCK) = false := by
    cases hF : ov.FORCE_RELEASE <;> cases hL : ov.FORCE_LOCK <;> simp_all
  refine ⟨by decide, ?_, ?_⟩ <;>
    · intro h
      unfold _fail_state STALE_DATA_FAIL_AFTER
      rw [hb]
      simp [h]
      try rfl

/-- Closed instantiation of `stale_boundary` with all overrides clear, at a
last update exactly 360 seconds old and exactly 359 seconds old. -/
theorem stale_boundary_witness :
    _fail_state ⟨false, false, none, none⟩ 360 ⟨0, 0⟩ =
      some "STALE_DATA: last update 360s ago" ∧
    _fail_state ⟨false, false, none, none⟩ 359 ⟨0, 0⟩ = none :=
  ⟨(stale_boundary ⟨false, false, none, none⟩ ⟨0, 0⟩ 360 (by simp)).2.1 (by norm_num),
   (stale_boundary ⟨false, false, none, none⟩ ⟨0, 0⟩ 359 (by simp)).2.2 (by norm_num)⟩

/-- C8: `_compute_confidence` returns `FORCE_CONFIDENCE` clamped to
`[0, 100]` whenever that override is set, for every phase; with the override
unset it returns `none` for every phase other than RELEASE and an integer in
`[0, 100]` for RELEASE. -/
theorem confidence_rules (ov : OverrideState) (phase : String) :
    (∀ c, ov.FORCE_CONFIDENCE = some c →
      _compute_confidence ov phase = some (max 0 (min 100 c)) ∧
      0 ≤ max 0 (min 100 c) ∧ max 0 (min 100 c) ≤ 100) ∧
    (ov.FORCE_CONFIDENCE = none → phase ≠ "RELEASE" →
      _compute_confidence ov phase = none) ∧
    (ov.FORCE_CONFIDENCE = none → phase = "RELEASE" →
      ∃ n, _compute_confidence ov phase = some n ∧ 0 ≤ n ∧ n ≤ 100) := by
  unfold _compute_confidence
  refine ⟨?_, ?_, ?_⟩
  · intro c hc
    rw [hc]
    exact ⟨rfl, by omega, by omega⟩
  · intro h hp
    rw [h]
    simp [hp]
  · intro h hp
    rw [h]
    simp [hp]

/-- Closed instantiation of `confidence_rules`: an out-of-range forced
confidence of 150 is clamped to 100 in a lock phase, and with no override
the score is hidden outside RELEASE and present in RELEASE. -/
theorem confidence_rules_witness :
    _compute_confidence ⟨false, false, none, some 150⟩ "POSITIONING" = some 100 ∧
    _compute_confidence ⟨false, false, none, none⟩ "TRANSITION" = none ∧
    ∃ n, _compute_confidence ⟨false, false, none, none⟩ "RELEASE" = some n ∧
      0 ≤ n ∧ n ≤ 100 := by
  refine ⟨?_, ?_, ?_⟩
  · have h := ((confidence_rules ⟨false, false, none, some 150⟩ "POSITIONING").1 150 rfl).1
    simpa using h
  · exact (confidence_rules ⟨false, false, none, none⟩ "TRANSITION").2.1 rfl (by decide)
  · exact (confidence_rules ⟨false, false, none, none⟩ "RELEASE").2.2 rfl rfl

/-- C9: override precedence in `_resolve_effective_phase`: a `FORCE_STATE`
inside the valid phase set wins outright; otherwise `FORCE_RELEASE` forces
RELEASE; otherwise the time-computed phase passes through unchanged. -/
theorem resolve_precedence (ov : OverrideState) (phase : String) :
    (∀ s, ov.FORCE_STATE = some s → s ∈ STATE_ORDER →
      _resolve_effective_phase ov phase = s) ∧
    ((∀ s, ov.FORCE_STATE = some s → s ∉ STATE_ORDER) →
      (ov.FORCE_RELEASE = true → _resolve_effective_phase ov phase = "RELEASE") ∧
      (ov.FORCE_RELEASE = false → _resolve_effective_phase ov phase = phase)) := by
  unfold _resolve_effective_phase
  cases hfs : ov.FORCE_STATE with
  | none =>
    refine ⟨by simp, fun _ => ⟨fun hr => ?_, fun hr => ?_⟩⟩ <;> simp [hr]
  | some s =>
    refine ⟨?_, ?_⟩
    · intro t ht hmem
      obtain rfl : s = t := by simpa using ht
      simp [hmem]
    · intro hinv
      have hs : s ∉ STATE_ORDER := hinv s rfl
      exact ⟨fun hr => by simp [hs, hr], fun hr => by simp [hs, hr]⟩

/-- Closed instantiation of `resolve_precedence`: a pinned TRANSITION wins
over `FORCE_RELEASE`, an invalid pin falls back to `FORCE_RELEASE`, and with
nothing set the time-computed phase passes through. -/
theorem resolve_precedence_witness :
    _resolve_effective_phase ⟨true, false, some "TRANSITION", none⟩ "POSITIONING" =
      "TRANSITION" ∧
    _resolve_effective_phase ⟨true, false, some "BOGUS", none⟩ "POSITIONING" =
      "RELEASE" ∧
    _resolve_effective_phase ⟨false, false, none, none⟩ "DISTRIBUTION" =
      "DISTRIBUTION" := by
  refine ⟨?_, ?_, ?_⟩
  · exact (resolve_precedence ⟨true, false, some "TRANSITION", none⟩
      "POSITIONING").1 "TRANSITION" rfl (by decide)
  · refine ((resolve_precedence ⟨true, false, some "BOGUS", none⟩
      "POSITIONING").2 ?_).1 rfl
    intro s hs
    obtain rfl : "BOGUS" = s := by simpa using hs
    decide
  · exact ((resolve_precedence ⟨false, false, none, none⟩ "DISTRIBUTION").2
      (fun s hs => by cases hs)).2 rfl

/-- C2 counterexample: the status-query route accepts a `force` query
parameter that rewrites the override globals, so running the query can
modify `FORCE_RELEASE`: with all overrides clear, `?force=release` flips
`FORCE_RELEASE` to true. -/
theorem whale_status_force_mutates :
    ((whale_status (some "release") ⟨false, false, none, none⟩ ⟨0, 0⟩ 0).1).FORCE_RELEASE
        = true ∧
    (OverrideState.mk false false none none).FORCE_RELEASE = false := by
  constructor <;> rfl

/-- C2 (amended): with no `force` query parameter supplied, the status query
leaves every field of the override and engine state unchanged, and the
override resolver's output is determined by its phase argument together with
the `FORCE_STATE` and `FORCE_RELEASE` fields alone. -/
theorem whale_status_no_force_frame (ov : OverrideState) (eng : EngineState)
    (now_ts : Int) :
    (whale_status none ov eng now_ts).1 = ov ∧
    (whale_status none ov eng now_ts).2.1 = eng ∧
    (∀ ov' phase, ov.FORCE_STATE = ov'.FORCE_STATE →
      ov.FORCE_RELEASE = ov'.FORCE_RELEASE →
      _resolve_effective_phase ov phase = _resolve_effective_phase ov' phase) := by
  refine ⟨rfl, rfl, ?_⟩
  intro ov' phase h1 h2
  unfold _resolve_effective_phase
  rw [h1, h2]

/-- Closed instantiation of `whale_status_no_force_frame` at a concrete
override state, engine state and instant. -/
theorem whale_status_no_force_frame_witness :
    (whale_status none ⟨false, true, some "TRANSITION", some 50⟩ ⟨5, 7⟩ 100).1 =
      ⟨false, true, some "TRANSITION", some 50⟩ ∧
    (whale_status none ⟨false, true, some "TRANSITION", some 50⟩ ⟨5, 7⟩ 100).2.1 =
      ⟨5, 7⟩ ∧
    _resolve_effective_phase ⟨false, true, some "TRANSITION", some 50⟩ "POSITIONING" =
      _resolve_effective_phase ⟨false, false, some "TRANSITION", none⟩ "POSITIONING" := by
  have h := whale_status_no_force_frame ⟨false, true, some "TRANSITION", some 50⟩ ⟨5, 7⟩ 100
  exact ⟨h.1, h.2.1, h.2.2 ⟨false, false, some "TRANSITION", none⟩ "POSITIONING" rfl rfl⟩

/-- C5: the phase clock is cyclic with period the cycle length (the sum of
the four configured durations, 900 seconds): shifting the instant by one
cycle length leaves the whole phase report unchanged. -/
theorem phase_clock_cyclic (now_ts : Int) (eng : EngineState) :
    _compute_phase_and_remaining (now_ts + (STATE_ORDER.map phase_duration).sum) eng =
      _compute_phase_and_remaining now_ts eng := by
  rw [cycle_total_eq, compute_phase_closed_form, compute_phase_closed_form]
  congr 1
  omega

end WhaleDetector

namespace WhaleApp

/-!
Scratch evaluations of the tier classifier, then the claim theorem about it.
-/

example : (assign_tier ⟨false, 3, 0⟩ ⟨false, 0⟩).tier = 1 := by
  norm_num [assign_tier, TIER2_MULT, VOLUME_SPIKE_MULT, TIER3_MULT, MIN_SPIKE_MOVE_PCT]

example : (assign_tier ⟨true, 6, 2⟩ ⟨false, 0⟩).tier = 2 := by
  norm_num [assign_tier, TIER2_MULT, VOLUME_SPIKE_MULT, TIER3_MULT, MIN_SPIKE_MOVE_PCT]

example : (assign_tier ⟨true, 9, 3⟩ ⟨false, 0⟩).tier = 3 := by
  norm_num [assign_tier, TIER2_MULT, VOLUME_SPIKE_MULT, TIER3_MULT, MIN_SPIKE_MOVE_PCT]

example : (assign_tier ⟨false, 0, 0⟩ ⟨true, 0.9⟩).tier = 3 := by
  norm_num [assign_tier, TIER2_MULT, VOLUME_SPIKE_MULT, TIER3_MULT, MIN_SPIKE_MOVE_PCT]

example : (assign_tier ⟨false, 0, 0⟩ ⟨true, 0.6⟩).tier = 2 := by
  norm_num [assign_tier, TIER2_MULT, VOLUME_SPIKE_MULT, TIER3_MULT, MIN_SPIKE_MOVE_PCT]

example : (assign_tier ⟨false, 0, 0⟩ ⟨true, 0.1⟩).tier = 1 := by
  norm_num [assign_tier, TIER2_MULT, VOLUME_SPIKE_MULT, TIER3_MULT, MIN_SPIKE_MOVE_PCT]

example : (assign_tier ⟨false, 1, 0⟩ ⟨false, 0.9⟩).tier = 0 := by
  norm_num [assign_tier, TIER2_MULT, VOLUME_SPIKE_MULT, TIER3_MULT, MIN_SPIKE_MOVE_PCT]

/-- C10: for every spike record and accumulation record, `assign_tier`
returns a tier in `{0, 1, 2, 3}`, and the tier is at least 1 whenever the
accumulation flag is set or the volume multiple reaches `TIER2_MULT` (3.0). -/
theorem assign_tier_bounds (spike_info : SpikeInfo) (accum_info : AccumInfo) :
    (assign_tier spike_info accum_info).tier ∈ ({0, 1, 2, 3} : Finset ℕ) ∧
    (accum_info.accumulation = true ∨ spike_info.volume_mult ≥ TIER2_MULT →
      1 ≤ (assign_tier spike_info accum_info).tier) := by
  simp only [assign_tier]
  split_ifs <;> simp_all

/-- Closed instantiation of `assign_tier_bounds` at a volume multiple of
exactly 3 with no spike flag and no accumulation. -/
theorem assign_tier_bounds_witness :
    (assign_tier ⟨false, 3, 0⟩ ⟨false, 0⟩).tier ∈ ({0, 1, 2, 3} : Finset ℕ) ∧
    1 ≤ (assign_tier ⟨false, 3, 0⟩ ⟨false, 0⟩).tier :=
  ⟨(assign_tier_bounds ⟨false, 3, 0⟩ ⟨false, 0⟩).1,
   (assign_tier_bounds ⟨false, 3, 0⟩ ⟨false, 0⟩).2
     (Or.inr (by norm_num [TIER2_MULT]))⟩

end WhaleApp
